import Mathlib

/-!
Shallow embedding of src/HitBoxDiscovery.py.

The program decodes uploaded JSON files, extracts an audiometric series
(session 0) and HIT probe curves (session 1) with parse_json, and builds
the parallel lists the plotting code consumes.  JSON values are embedded
as the inductive JValue; Python runtime errors (TypeError, KeyError,
IndexError, AttributeError, and the ValueError numpy raises on shape
mismatch) are embedded as PyError, with fallible steps in the Except
monad.  Numbers are embedded as integers: every numeric field in the
documents the claims mention is integral.
-/

namespace HitBoxDiscovery

/-- A parsed JSON value, as returned by the Python json module. -/
inductive JValue where
  | null
  | bool (b : Bool)
  | num (n : Int)
  | str (s : String)
  | arr (elems : List JValue)
  | obj (fields : List (String × JValue))

/-- Python runtime errors that the traversal in the source can raise. -/
inductive PyError where
  | typeError
  | keyError
  | indexError
  | attributeError
  | valueError
deriving DecidableEq, Repr

/-- Dictionary lookup: the value stored under key k, if any.  Documents
produced by the json module have distinct keys, so first match suffices. -/
def dictGet (fields : List (String × JValue)) (k : String) : Option JValue :=
  (fields.find? (fun p => p.1 == k)).map (fun p => p.2)

/-- Did the object branch of JValue build this value? -/
def isList : JValue → Bool
  | .arr _ => true
  | _ => false

/-- Python membership test `k in v` for a string k: key test on a dict,
element test on a list, substring test on a string, TypeError otherwise. -/
def pyContainsStr (k : String) : JValue → Except PyError Bool
  | .obj fs => .ok (fs.any (fun p => p.1 == k))
  | .arr xs => .ok (xs.any (fun v => match v with | .str s => s == k | _ => false))
  | .str s => .ok ((s.splitOn k).length != 1)
  | _ => .error .typeError

/-- Python subscript `v[k]` with a string key: dict lookup (KeyError when
absent), TypeError on every other value. -/
def pySubscriptStr (v : JValue) (k : String) : Except PyError JValue :=
  match v with
  | .obj fs =>
    match dictGet fs k with
    | some x => .ok x
    | none => .error .keyError
  | _ => .error .typeError

/-- Python subscript `v[i]` with a small nonnegative integer index:
list and string indexing (IndexError when out of range), KeyError on a
dict whose keys are strings, TypeError otherwise. -/
def pySubscriptNat (v : JValue) (i : Nat) : Except PyError JValue :=
  match v with
  | .arr xs =>
    match xs.get? i with
    | some x => .ok x
    | none => .error .indexError
  | .str s =>
    match s.toList.get? i with
    | some c => .ok (.str (String.mk [c]))
    | none => .error .indexError
  | .obj _ => .error .keyError
  | _ => .error .typeError

/-- Python truthiness of a json value. -/
def pyTruthy : JValue → Bool
  | .null => false
  | .bool b => b
  | .num n => n != 0
  | .str s => !s.isEmpty
  | .arr xs => !xs.isEmpty
  | .obj fs => !fs.isEmpty

/-- Python `len`, TypeError on values without a length. -/
def pyLen : JValue → Except PyError Nat
  | .str s => .ok s.length
  | .arr xs => .ok xs.length
  | .obj fs => .ok fs.length
  | _ => .error .typeError

/-- Python iteration `for x in v`: the elements of a list, the keys of a
dict, the characters of a string, TypeError otherwise. -/
def pyIter : JValue → Except PyError (List JValue)
  | .arr xs => .ok xs
  | .obj fs => .ok (fs.map (fun p => .str p.1))
  | .str s => .ok (s.toList.map (fun c => .str (String.mk [c])))
  | _ => .error .typeError

/-- Python method call `v.get(k, dflt)`: AttributeError unless v is a dict. -/
def pyGetMethod (v : JValue) (k : String) (dflt : JValue) : Except PyError JValue :=
  match v with
  | .obj fs => .ok ((dictGet fs k).getD dflt)
  | _ => .error .attributeError

/-- Python equality `v == s` against a string literal: value equality for
strings, False for every other json value (never an error). -/
def pyEqStr (v : JValue) (s : String) : Bool :=
  match v with
  | .str t => t == s
  | _ => false

/-- The conditional expression of lines 30 and 37 of the source: the
DataSets value with a list replaced by its first element (an IndexError
on an empty list) and anything else taken as is. -/
def normalizeDataSets (ds : JValue) : Except PyError JValue :=
  if isList ds then pySubscriptNat ds 0 else pure ds

/-- Lines 29 to 31 and 36 to 38 of the source, which are identical in
structure: if the session has a DataSets key, normalize its value, then
read Data and Collection with defaulted dict lookups; otherwise the
extracted value stays None. -/
def extractFromSession (s : JValue) : Except PyError (Option JValue) := do
  let hasDS ← pyContainsStr "DataSets" s
  if hasDS then do
    let ds ← pySubscriptStr s "DataSets"
    let dataSet ← normalizeDataSets ds
    let dataVal ← pyGetMethod dataSet "Data" (.obj [])
    let coll ← pyGetMethod dataVal "Collection" (.arr [])
    pure (some coll)
  else
    pure none

/-- Lines 22 to 40 of the source: the session count, the session 0
audiometry extraction and the session 1 HIT extraction, in source order. -/
def parseSessions (sessions : JValue) :
    Except PyError (Option JValue × Option JValue) := do
  let sessionCount ← pyLen sessions
  let audiometry ←
    if sessionCount ≥ 1 then do
      let session1 ← pySubscriptNat sessions 0
      extractFromSession session1
    else
      pure (none : Option JValue)
  let hitData ←
    if sessionCount ≥ 2 then do
      let session2 ← pySubscriptNat sessions 1
      extractFromSession session2
    else
      pure (none : Option JValue)
  pure (audiometry, hitData)

/-- The banner text of line 19.  The source wraps the word Sessions in
single quotes, omitted here. -/
def missingSessionsMessage : String := "Invalid JSON: Missing Sessions"

/-- Lines 17 to 40 of the source, parse_json, before threading the UI
message log: the Bool records whether st.error was called (the guard
branch of lines 18 to 20), and the Except carries either the pair
(audiometry, hit_data) or the Python exception the traversal raised.
The guard evaluates its two operands with Python short-circuit order. -/
def parse_json_core (d : JValue) :
    Bool × Except PyError (Option JValue × Option JValue) :=
  match pyContainsStr "Sessions" d with
  | .error e => (false, .error e)
  | .ok c =>
    if c = false then
      (true, .ok (none, none))
    else
      match pySubscriptStr d "Sessions" with
      | .error e => (false, .error e)
      | .ok sessions =>
        if pyTruthy sessions = false then
          (true, .ok (none, none))
        else
          (false, parseSessions sessions)

/-- parse_json with the UI message log threaded through: st.error appends
the banner to the log shown to the user; the returned value is otherwise
that of parse_json_core. -/
def parse_json (log : List String) (d : JValue) :
    List String × Except PyError (Option JValue × Option JValue) :=
  (if (parse_json_core d).1 then log ++ [missingSessionsMessage] else log,
   (parse_json_core d).2)

/-- Python split on a single character, over the character list: split(s)
always yields at least one (possibly empty) piece. -/
def splitOnChar (c : Char) : List Char → List (List Char)
  | [] => [[]]
  | x :: xs =>
    match splitOnChar c xs with
    | [] => [[]]
    | g :: gs => if x = c then [] :: g :: gs else (x :: g) :: gs

/-- Line 74 of the source: the default legend offered for a file,
file_name.split(".")[0]. -/
def legendDefault (name : String) : String :=
  String.mk ((splitOnChar '.' name.toList).headD [])

/-- The outcome of json.loads on the (BOM-stripped) text of one uploaded
file: the decoder is the Python standard library, external to this
program, so a file is represented by its name paired with this outcome;
failed stands for the json.JSONDecodeError the spec calls
MalformedInputError. -/
inductive Decoded where
  | failed
  | value (v : JValue)

/-- An uncaught exception escaping the upload loop of lines 72 to 80:
either the decode error of clean_json or a Python error raised inside
parse_json.  Nothing in the source catches either one. -/
inductive BatchError where
  | decodeErr (fileName : String)
  | pyErr (e : PyError)
deriving DecidableEq, Repr

/-- One entry of data_store (line 80): file name, legend, and the two
extracted values. -/
structure FileRecord where
  fileName : String
  legend : String
  audiometry : Option JValue
  hitData : Option JValue

/-- The body of the upload loop for one file, lines 73 to 80: default the
legend, decode, parse, append to data_store; a decode failure or a parse
exception propagates out of the loop. -/
def processFile (acc : List String × List FileRecord) (f : String × Decoded) :
    Except BatchError (List String × List FileRecord) :=
  match f.2 with
  | .failed => .error (.decodeErr f.1)
  | .value d =>
    match parse_json acc.1 d with
    | (_, .error e) => .error (.pyErr e)
    | (log2, .ok (aud, hit)) =>
      .ok (log2, acc.2 ++ [⟨f.1, legendDefault f.1, aud, hit⟩])

/-- Lines 68 to 80 of the source: fold the loop body over the uploaded
files, starting from an empty message log and an empty data_store. -/
def processFiles (files : List (String × Decoded)) :
    Except BatchError (List String × List FileRecord) :=
  files.foldlM processFile ([], [])

/-- The guard of line 90: Earside in item and Collection in item, with
Python short-circuit evaluation of the conjunction. -/
def groupGuard (item : JValue) : Except PyError Bool := do
  let hasEar ← pyContainsStr "Earside" item
  if hasEar then pyContainsStr "Collection" item else pure false

/-- Lines 92 to 96 of the source, the body run for one point of an ear
group: append the frequency to the shared freq list, then look the group
Earside up again and append the level to the right or the left list. -/
def audioPointStep (item : JValue) (a : List JValue × List JValue × List JValue)
    (point : JValue) : Except PyError (List JValue × List JValue × List JValue) := do
  let f ← pySubscriptStr point "Frequency"
  let ear ← pySubscriptStr item "Earside"
  if pyEqStr ear "Right" then do
    let lvl ← pySubscriptStr point "Level"
    pure (a.1 ++ [f], a.2.1 ++ [lvl], a.2.2)
  else do
    let lvl ← pySubscriptStr point "Level"
    pure (a.1 ++ [f], a.2.1, a.2.2 ++ [lvl])

/-- Lines 90 to 96 of the source, the body run for one item of the
audiometry collection: groups passing the guard contribute their points,
all other groups leave the three lists unchanged. -/
def audioItemStep (acc : List JValue × List JValue × List JValue) (item : JValue) :
    Except PyError (List JValue × List JValue × List JValue) := do
  let cond ← groupGuard item
  if cond then do
    let points ← pySubscriptStr item "Collection"
    let pointList ← pyIter points
    pointList.foldlM (audioPointStep item) acc
  else
    pure acc

/-- Lines 88 to 96 of the source: the freq, levels_right and levels_left
lists the audiometry chart is fed for one file (the subsequent semilogx
calls plot freq against each of the level lists). -/
def audiometryLists (audiometry : JValue) :
    Except PyError (List JValue × List JValue × List JValue) := do
  let items ← pyIter audiometry
  items.foldlM audioItemStep ([], [], [])

/-- Lines 118 to 120 of the source, the body run for one point of a probe
item: append the Frequency, Input and Output values to the three lists. -/
def hitPointStep (a : List JValue × List JValue × List JValue) (point : JValue) :
    Except PyError (List JValue × List JValue × List JValue) := do
  let f ← pySubscriptStr point "Frequency"
  let iv ← pySubscriptStr point "Input"
  let ov ← pySubscriptStr point "Output"
  pure (a.1 ++ [f], a.2.1 ++ [iv], a.2.2 ++ [ov])

/-- Lines 114 to 123 of the source, the body run for one item of the HIT
collection: read the defaulted Points list, fold the point step over it,
and append the resulting triple of lists. -/
def hitItemStep
    (acc : List (List JValue) × List (List JValue) × List (List JValue))
    (item : JValue) :
    Except PyError (List (List JValue) × List (List JValue) × List (List JValue)) := do
  let points ← pyGetMethod item "Points" (.arr [])
  let pointList ← pyIter points
  let t ← pointList.foldlM hitPointStep ([], [], [])
  pure (acc.1 ++ [t.1], acc.2.1 ++ [t.2.1], acc.2.2 ++ [t.2.2])

/-- Lines 113 to 123 of the source: the hit_freqs, input_levels and
output_levels lists of lists built for one file before the REM curves are
plotted. -/
def hitLists (hitData : JValue) :
    Except PyError (List (List JValue) × List (List JValue) × List (List JValue)) := do
  let items ← pyIter hitData
  items.foldlM hitItemStep ([], [], [])

/-- A json value as a number, as numpy arithmetic needs it. -/
def asNum : JValue → Except PyError Int
  | .num n => .ok n
  | _ => .error .typeError

/-- Line 125 of the source, np.array(output) - np.array(input): the
elementwise difference, a ValueError when the shapes disagree. -/
def npSubtract (outs ins : List JValue) : Except PyError (List Int) := do
  let os ← outs.mapM asNum
  let ivs ← ins.mapM asNum
  if os.length = ivs.length then
    pure (List.zipWith (fun a b => a - b) os ivs)
  else
    .error .valueError

/-- An audiometric point object with a Frequency and a Level field. -/
def audPoint (f l : Int) : JValue :=
  .obj [("Frequency", .num f), ("Level", .num l)]

/-- An ear group: an Earside tag and a Collection of points. -/
def earGroup (side : String) (pts : List JValue) : JValue :=
  .obj [("Earside", .str side), ("Collection", .arr pts)]

/-- A HIT probe point object with Frequency, Input and Output fields. -/
def hitPoint (f iv ov : Int) : JValue :=
  .obj [("Frequency", .num f), ("Input", .num iv), ("Output", .num ov)]

/-- A document with the given list of sessions. -/
def mkDoc (sessions : List JValue) : JValue :=
  .obj [("Sessions", .arr sessions)]

/-- A session whose DataSets node is a one-element list wrapping an object
carrying Data.Collection, the canonical shape of the device exports. -/
def sessionWith (coll : List JValue) : JValue :=
  .obj [("DataSets", .arr [.obj [("Data", .obj [("Collection", .arr coll)])]])]

/-- The audiometry collection of the end-to-end scenario: Right ear points
(250, 10) and (500, 15), Left ear points (250, 12) and (500, 18). -/
def scenarioAudItems : List JValue :=
  [earGroup "Right" [audPoint 250 10, audPoint 500 15],
   earGroup "Left" [audPoint 250 12, audPoint 500 18]]

/-- The HIT collection of the end-to-end scenario: one probe item whose
points list is the single triple (1000, 50, 62). -/
def scenarioHitItems : List JValue :=
  [.obj [("Points", .arr [hitPoint 1000 50 62])]]

/-- The end-to-end scenario document: session 0 audiometry, session 1 HIT. -/
def scenarioDoc : JValue :=
  mkDoc [sessionWith scenarioAudItems, sessionWith scenarioHitItems]

/-- Dataset nodes whose Data and Collection reads cannot raise: the node
is an object and its Data value, when present, is an object. -/
def goodDataNode : JValue → Bool
  | .obj fs =>
    match dictGet fs "Data" with
    | none => true
    | some (.obj _) => true
    | some _ => false
  | _ => false

/-- DataSets values whose normalization and subsequent reads cannot
raise: a nonempty list whose first element is a good dataset node, or a
non-list good dataset node. -/
def goodDataSets : JValue → Bool
  | .arr [] => false
  | .arr (h :: _) => goodDataNode h
  | x => goodDataNode x

/-- Sessions whose extraction cannot raise: objects whose DataSets value,
when present, has a good shape. -/
def goodSession : JValue → Bool
  | .obj fs =>
    match dictGet fs "DataSets" with
    | none => true
    | some ds => goodDataSets ds
  | _ => false

/-- Documents whose traversal cannot raise: objects whose Sessions value,
when present, is a list of sessions in which the sessions the code visits
(indices 0 and 1) have good shapes. -/
def goodDoc : JValue → Bool
  | .obj fs =>
    match dictGet fs "Sessions" with
    | none => true
    | some (.arr []) => true
    | some (.arr (s0 :: rest)) =>
      goodSession s0 &&
        (match rest with
         | [] => true
         | s1 :: _ => goodSession s1)
    | some _ => false
  | _ => false

/-- Did the computation finish without a Python exception? -/
def exceptOk {α : Type} : Except PyError α → Bool
  | .ok _ => true
  | .error _ => false

/-- Two parallel component lists have the same length. -/
def sameLength (a b : List JValue) : Prop := a.length = b.length

end HitBoxDiscovery

namespace HitBoxDiscovery

theorem ok_bind {ε α β : Type} (a : α) (f : α → Except ε β) :
    (Except.ok a : Except ε α) >>= f = f a := rfl

theorem error_bind {ε α β : Type} (e : ε) (f : α → Except ε β) :
    (Except.error e : Except ε α) >>= f = .error e := rfl

theorem except_bind_eq_ok {ε α β : Type} {x : Except ε α} {f : α → Except ε β} {r : β} :
    x >>= f = .ok r ↔ ∃ b, x = .ok b ∧ f b = .ok r := by
  cases x with
  | error e => simp [error_bind]
  | ok a => simp [ok_bind]

theorem any_of_find?_eq_some {α : Type} {p : α → Bool} {l : List α} {a : α}
    (h : l.find? p = some a) : l.any p = true := by
  induction l with
  | nil => simp [List.find?] at h
  | cons x xs ih =>
    cases hx : p x with
    | true => simp [List.any_cons, hx]
    | false =>
      rw [List.find?_cons_of_neg _ (by simp [hx])] at h
      simp [List.any_cons, ih h]

theorem dictGet_any_true {fs : List (String × JValue)} {k : String} {v : JValue}
    (h : dictGet fs k = some v) : fs.any (fun p => p.1 == k) = true := by
  rcases Option.map_eq_some'.mp h with ⟨pr, hfind, _⟩
  exact any_of_find?_eq_some hfind

theorem dictGet_any_false {fs : List (String × JValue)} {k : String}
    (h : dictGet fs k = none) : fs.any (fun p => p.1 == k) = false := by
  have hfind : fs.find? (fun p => p.1 == k) = none := Option.map_eq_none'.mp h
  rw [List.find?_eq_none] at hfind
  simp only [List.any_eq_false]
  intro x hx
  simpa using hfind x hx

theorem contains_of_dictGet_some {fs : List (String × JValue)} {k : String} {v : JValue}
    (h : dictGet fs k = some v) : pyContainsStr k (.obj fs) = .ok true := by
  simp [pyContainsStr, dictGet_any_true h]

theorem contains_of_dictGet_none {fs : List (String × JValue)} {k : String}
    (h : dictGet fs k = none) : pyContainsStr k (.obj fs) = .ok false := by
  simp [pyContainsStr, dictGet_any_false h]

theorem subscript_of_dictGet_some {fs : List (String × JValue)} {k : String} {v : JValue}
    (h : dictGet fs k = some v) : pySubscriptStr (.obj fs) k = .ok v := by
  simp [pySubscriptStr, h]

theorem parse_json_core_no_sessions {fs : List (String × JValue)}
    (h : dictGet fs "Sessions" = none) :
    parse_json_core (.obj fs) = (true, .ok (none, none)) := by
  simp [parse_json_core, contains_of_dictGet_none h]

theorem parse_json_core_of_sessions {fs : List (String × JValue)} {v : JValue}
    (h : dictGet fs "Sessions" = some v) :
    parse_json_core (.obj fs)
      = if pyTruthy v then (false, parseSessions v) else (true, .ok (none, none)) := by
  by_cases ht : pyTruthy v <;>
    simp [parse_json_core, contains_of_dictGet_some h, subscript_of_dictGet_some h, ht]

theorem ok_map {ε α β : Type} (f : α → β) (a : α) :
    (f <$> (Except.ok a : Except ε α)) = .ok (f a) := rfl

theorem goodDataSets_norm {ds : JValue} (h : goodDataSets ds = true) :
    ∃ dataSet, normalizeDataSets ds = .ok dataSet ∧ goodDataNode dataSet = true := by
  cases ds with
  | arr l =>
    cases l with
    | nil => simp [goodDataSets] at h
    | cons d0 rest => exact ⟨d0, rfl, by simpa [goodDataSets] using h⟩
  | null => exact ⟨.null, rfl, by simpa [goodDataSets] using h⟩
  | bool b => exact ⟨.bool b, rfl, by simpa [goodDataSets] using h⟩
  | num n => exact ⟨.num n, rfl, by simpa [goodDataSets] using h⟩
  | str t => exact ⟨.str t, rfl, by simpa [goodDataSets] using h⟩
  | obj fs => exact ⟨.obj fs, rfl, by simpa [goodDataSets] using h⟩

theorem goodDataNode_data {d : JValue} (h : goodDataNode d = true) :
    ∃ g, pyGetMethod d "Data" (.obj []) = .ok (.obj g) := by
  cases d with
  | obj fs =>
    rcases hData : dictGet fs "Data" with _ | dv
    · exact ⟨[], by simp [pyGetMethod, hData]⟩
    · simp only [goodDataNode, hData] at h
      cases dv with
      | obj g => exact ⟨g, by simp [pyGetMethod, hData]⟩
      | null => simp at h
      | bool b => simp at h
      | num n => simp at h
      | str t => simp at h
      | arr l => simp at h
  | null => simp [goodDataNode] at h
  | bool b => simp [goodDataNode] at h
  | num n => simp [goodDataNode] at h
  | str t => simp [goodDataNode] at h
  | arr l => simp [goodDataNode] at h

theorem extractFromSession_ok {s : JValue} (h : goodSession s = true) :
    ∃ r, extractFromSession s = .ok r := by
  cases s with
  | obj fs =>
    rcases hDS : dictGet fs "DataSets" with _ | ds
    · refine ⟨none, ?_⟩
      simp only [extractFromSession, contains_of_dictGet_none hDS, ok_bind]
      rfl
    · simp only [goodSession, hDS] at h
      obtain ⟨dataSet, hNorm, hNode⟩ := goodDataSets_norm h
      obtain ⟨g, hData⟩ := goodDataNode_data hNode
      refine ⟨some ((dictGet g "Collection").getD (.arr [])), ?_⟩
      simp only [extractFromSession, contains_of_dictGet_some hDS,
                 subscript_of_dictGet_some hDS, ok_bind, hNorm, hData]
      rfl
  | null => simp [goodSession] at h
  | bool b => simp [goodSession] at h
  | num n => simp [goodSession] at h
  | str t => simp [goodSession] at h
  | arr l => simp [goodSession] at h

theorem parseSessions_ok {s0 : JValue} {rest : List JValue}
    (h0 : goodSession s0 = true)
    (h1 : ∀ s1 rest2, rest = s1 :: rest2 → goodSession s1 = true) :
    ∃ r, parseSessions (.arr (s0 :: rest)) = .ok r := by
  obtain ⟨a, ha⟩ := extractFromSession_ok h0
  cases rest with
  | nil =>
    refine ⟨(a, none), ?_⟩
    simp [parseSessions, pyLen, ok_bind, pySubscriptNat, ha]
    rfl
  | cons s1 rest2 =>
    obtain ⟨b, hb⟩ := extractFromSession_ok (h1 s1 rest2 rfl)
    refine ⟨(a, b), ?_⟩
    simp [parseSessions, pyLen, ok_bind, pySubscriptNat, ha, hb]

/-- C1 (amended): for every document that is an object whose Sessions
value, when present, is a list of session objects in which sessions 0 and
1 either lack DataSets or carry a DataSets value that is a nonempty list
with an object head (or a non-list object), with the Data value absent or
an object, parse_json returns without raising a Python exception; missing
Sessions, missing DataSets and missing Data or Collection keys are all
tolerated.  The totality the claim asserts for an empty DataSets list or
a Data value of unexpected shape does not hold (see the counterexample). -/
theorem parse_json_total_on_wellShaped_docs (d : JValue) (log : List String)
    (h : goodDoc d = true) : exceptOk (parse_json log d).2 = true := by
  cases d with
  | obj fs =>
    rcases hS : dictGet fs "Sessions" with _ | v
    · simp [parse_json, parse_json_core_no_sessions hS, exceptOk]
    · simp only [goodDoc, hS] at h
      cases v with
      | arr l =>
        cases l with
        | nil => simp [parse_json, parse_json_core_of_sessions hS, pyTruthy, exceptOk]
        | cons s0 rest =>
          simp only [Bool.and_eq_true] at h
          obtain ⟨h0, h1⟩ := h
          have hps : ∃ r, parseSessions (.arr (s0 :: rest)) = .ok r := by
            apply parseSessions_ok h0
            intro s1 rest2 hr
            subst hr
            simpa using h1
          obtain ⟨r, hr⟩ := hps
          simp [parse_json, parse_json_core_of_sessions hS, pyTruthy, hr, exceptOk]
      | null => simp at h
      | bool b => simp at h
      | num n => simp at h
      | str t => simp at h
      | obj g => simp at h
  | null => simp [goodDoc] at h
  | bool b => simp [goodDoc] at h
  | num n => simp [goodDoc] at h
  | str t => simp [goodDoc] at h
  | arr l => simp [goodDoc] at h

/-- C1 witness: the end-to-end scenario document is well shaped and its
extraction raises no exception. -/
theorem parse_json_total_on_wellShaped_docs_witness :
    goodDoc scenarioDoc = true ∧ exceptOk (parse_json [] scenarioDoc).2 = true :=
  ⟨by rfl, parse_json_total_on_wellShaped_docs scenarioDoc [] (by rfl)⟩

/-- C1 counterexample: a document whose only session carries an empty
DataSets list makes parse_json raise IndexError (line 30 indexes the
empty list), and a session whose Data value is a number makes it raise
AttributeError (line 31 calls get on a non-dict), contradicting the
claimed totality for an empty DataSets list and for a Data value of an
unexpected shape. -/
theorem parse_json_raises_on_empty_DataSets_list :
    parse_json [] (.obj [("Sessions", .arr [.obj [("DataSets", .arr [])]])])
      = ([], .error .indexError)
  ∧ parse_json [] (.obj [("Sessions",
        .arr [.obj [("DataSets", .arr [.obj [("Data", .num 5)]])]])])
      = ([], .error .attributeError) := ⟨rfl, rfl⟩

/-- C4: for every document that is an object whose Sessions key is absent
or maps to an empty list, parse_json shows the missing-Sessions banner
(the MissingSessionsWarning of the spec) and returns with both extracted
fields absent, raising nothing. -/
theorem missing_sessions_yields_absent_fields_and_warning
    (fs : List (String × JValue)) (log : List String)
    (h : dictGet fs "Sessions" = none ∨ dictGet fs "Sessions" = some (.arr [])) :
    parse_json log (.obj fs) = (log ++ [missingSessionsMessage], .ok (none, none)) := by
  rcases h with h | h
  · simp [parse_json, parse_json_core_no_sessions h]
  · simp [parse_json, parse_json_core_of_sessions h, pyTruthy]

/-- C4 witness: a document with no Sessions key at all. -/
theorem missing_sessions_yields_absent_fields_and_warning_witness :
    (dictGet [("Patient", JValue.str "X")] "Sessions" = none ∨
     dictGet [("Patient", JValue.str "X")] "Sessions" = some (.arr [])) ∧
    parse_json [] (.obj [("Patient", JValue.str "X")])
      = ([missingSessionsMessage], .ok (none, none)) := by
  constructor
  · exact Or.inl rfl
  · have h2 := missing_sessions_yields_absent_fields_and_warning
      [("Patient", JValue.str "X")] [] (Or.inl rfl)
    simpa using h2

theorem foldlM_cons_eq {m : Type → Type} [Monad m] {σ α : Type}
    (f : σ → α → m σ) (b : σ) (x : α) (l : List α) :
    (x :: l).foldlM f b = f b x >>= fun c => l.foldlM f c := rfl

theorem foldlM_append_eq {m : Type → Type} [Monad m] [LawfulMonad m] {σ α : Type}
    (f : σ → α → m σ) (b : σ) (l1 l2 : List α) :
    (l1 ++ l2).foldlM f b = l1.foldlM f b >>= fun c => l2.foldlM f c := by
  induction l1 generalizing b with
  | nil => simp [List.foldlM]
  | cons x xs ih => simp only [List.cons_append, foldlM_cons_eq, ih, bind_assoc]

/-- C2 (amended): a file that fails to decode makes the upload loop raise
the decode error out of the whole batch: whatever valid files preceded it,
processing the batch that contains it yields no extraction results at all,
only the uncaught decode error of the malformed file.  Nothing in lines 72
to 80 of the source catches the exception of clean_json. -/
theorem batch_decode_failure_aborts
    (pre post : List (String × Decoded)) (nm : String)
    (acc : List String × List FileRecord)
    (h : processFiles pre = .ok acc) :
    processFiles (pre ++ (nm, .failed) :: post) = .error (.decodeErr nm) := by
  unfold processFiles at h ⊢
  rw [foldlM_append_eq, h, ok_bind, foldlM_cons_eq]
  rfl

/-- C2 witness: one decoded file processes fine, and inserting a malformed
file after it aborts the batch with the decode error. -/
theorem batch_decode_failure_aborts_witness :
    processFiles [("a.json", Decoded.value scenarioDoc)]
      = .ok ([], [⟨"a.json", "a", some (.arr scenarioAudItems),
                   some (.arr scenarioHitItems)⟩]) ∧
    processFiles ([("a.json", Decoded.value scenarioDoc)]
        ++ ("bad.json", Decoded.failed) :: [("c.json", Decoded.value scenarioDoc)])
      = .error (.decodeErr "bad.json") :=
  ⟨rfl, batch_decode_failure_aborts [("a.json", Decoded.value scenarioDoc)]
    [("c.json", Decoded.value scenarioDoc)] "bad.json" _ rfl⟩

/-- C2 counterexample: a batch of two valid files around one malformed
file does not yield the two valid extractions plus a reported decode
error; processing the batch is a single error with no results. -/
theorem batch_two_valid_one_malformed_counterexample :
    processFiles [("a.json", .value scenarioDoc), ("bad.json", .failed),
                  ("c.json", .value scenarioDoc)]
      = .error (.decodeErr "bad.json") := rfl

/-- C8: parse_json is a pure function of the document: the value it
returns does not depend on the UI message log accumulated by earlier
calls, and a second call on the same document, starting from the state the
first call left, returns the identical result. -/
theorem parse_json_independent_of_prior_state (log1 log2 : List String) (d : JValue) :
    (parse_json log1 d).2 = (parse_json log2 d).2 ∧
    (parse_json (parse_json log1 d).1 d).2 = (parse_json log1 d).2 :=
  ⟨rfl, rfl⟩

/-- C5 (evaluation at the claimed end-to-end document): parse_json does
return the two collections, and the probe side behaves as claimed (one
curve from the triple (1000, 50, 62), insertion gain 62 - 50 = 12); but
the audiometry loop appends every frequency of both ear groups to one
shared list, producing freq = [250, 500, 250, 500] with levels_right =
[10, 15] and levels_left = [12, 18], not the claimed per-ear frequency
list [250, 500]; the lengths disagree, so the semilogx calls of lines 97
and 98 are fed mismatched arrays and raise. -/
theorem audiometry_shared_frequency_list_eval :
    parse_json [] scenarioDoc
      = ([], .ok (some (.arr scenarioAudItems), some (.arr scenarioHitItems)))
  ∧ audiometryLists (.arr scenarioAudItems)
      = .ok ([.num 250, .num 500, .num 250, .num 500],
             [.num 10, .num 15], [.num 12, .num 18])
  ∧ hitLists (.arr scenarioHitItems) = .ok ([[.num 1000]], [[.num 50]], [[.num 62]])
  ∧ npSubtract [.num 62] [.num 50] = .ok [12]
  ∧ [JValue.num 250, .num 500, .num 250, .num 500].length
      ≠ [JValue.num 10, .num 15].length :=
  ⟨rfl, rfl, rfl, rfl, by decide⟩

theorem audioItemStep_skip {item : JValue} (h : groupGuard item = .ok false)
    (acc : List JValue × List JValue × List JValue) :
    audioItemStep acc item = .ok acc := by
  simp only [audioItemStep, h, ok_bind]
  rfl

/-- C7: an item of the audiometry collection that fails the guard of line
90 (it lacks an Earside tag, or lacks a Collection of points) contributes
nothing to any of the three output lists: the extraction of the whole
collection is the same as if the item were not there, and in particular
none of its points reach the Left or the Right level sequence. -/
theorem untagged_ear_group_skipped (bad : JValue) (h : groupGuard bad = .ok false)
    (pre post : List JValue) :
    audiometryLists (.arr (pre ++ bad :: post)) = audiometryLists (.arr (pre ++ post)) := by
  simp only [audiometryLists, pyIter, ok_bind, foldlM_append_eq, foldlM_cons_eq,
             audioItemStep_skip h, ok_bind]

/-- C7 witness: a group carrying points but no Earside tag is skipped. -/
theorem untagged_ear_group_skipped_witness :
    groupGuard (.obj [("Collection", .arr [audPoint 1000 30])]) = .ok false ∧
    audiometryLists (.arr ([earGroup "Right" [audPoint 250 10]]
        ++ JValue.obj [("Collection", .arr [audPoint 1000 30])] :: []))
      = audiometryLists (.arr ([earGroup "Right" [audPoint 250 10]] ++ [])) :=
  ⟨rfl, untagged_ear_group_skipped (.obj [("Collection", .arr [audPoint 1000 30])]) rfl
    [earGroup "Right" [audPoint 250 10]] []⟩

theorem audioPoints_fold_left {item : JValue} {e : String}
    (hEar : pySubscriptStr item "Earside" = .ok (.str e)) (hne : e ≠ "Right")
    (F L : JValue → JValue) :
    ∀ (points : List JValue),
      (∀ p ∈ points, pySubscriptStr p "Frequency" = .ok (F p)
        ∧ pySubscriptStr p "Level" = .ok (L p)) →
      ∀ (f0 r0 l0 : List JValue),
      points.foldlM (audioPointStep item) (f0, r0, l0)
        = .ok (f0 ++ points.map F, r0, l0 ++ points.map L) := by
  intro points
  induction points with
  | nil =>
    intro _ f0 r0 l0
    simp [List.foldlM]
    rfl
  | cons p ps ih =>
    intro hpts f0 r0 l0
    obtain ⟨hF, hL⟩ := hpts p (List.mem_cons_self p ps)
    have hps : ∀ q ∈ ps, pySubscriptStr q "Frequency" = .ok (F q)
        ∧ pySubscriptStr q "Level" = .ok (L q) :=
      fun q hq => hpts q (List.mem_cons_of_mem p hq)
    have hbeq : (e == "Right") = false := by
      simpa using hne
    rw [foldlM_cons_eq]
    have hstep : audioPointStep item (f0, r0, l0) p
        = .ok (f0 ++ [F p], r0, l0 ++ [L p]) := by
      simp only [audioPointStep, hF, ok_bind, hEar, pyEqStr, hbeq, hL]
      rfl
    rw [hstep, ok_bind, ih hps]
    simp

/-- C9: for every ear group that passes the guard with an Earside value
that is a string other than exactly Right (Left, lowercase variants,
Binaural, anything else), every point of the group sends its Level to the
levels_left list, while its Frequency goes to the single freq list that
both ears share. -/
theorem non_right_earside_appends_left
    (item : JValue) (e : String) (hne : e ≠ "Right")
    (points : List JValue) (F L : JValue → JValue)
    (hG1 : pyContainsStr "Earside" item = .ok true)
    (hG2 : pyContainsStr "Collection" item = .ok true)
    (hEar : pySubscriptStr item "Earside" = .ok (.str e))
    (hColl : pySubscriptStr item "Collection" = .ok (.arr points))
    (hpts : ∀ p ∈ points, pySubscriptStr p "Frequency" = .ok (F p)
      ∧ pySubscriptStr p "Level" = .ok (L p))
    (f0 r0 l0 : List JValue) :
    audioItemStep (f0, r0, l0) item
      = .ok (f0 ++ points.map F, r0, l0 ++ points.map L) := by
  have hg : groupGuard item = .ok true := by
    simp [groupGuard, hG1, hG2, ok_bind]
  simp only [audioItemStep, hg, ok_bind, hColl, pyIter]
  exact audioPoints_fold_left hEar hne F L points hpts f0 r0 l0

/-- C9 witness: a group tagged Binaural with one point (750, 40): the
level lands in the left list, the frequency in the shared list. -/
theorem non_right_earside_appends_left_witness :
    "Binaural" ≠ "Right" ∧
    audioItemStep ([], [], []) (earGroup "Binaural" [audPoint 750 40])
      = .ok ([JValue.num 750], [], [JValue.num 40]) := by
  constructor
  · decide
  · have h := non_right_earside_appends_left
      (earGroup "Binaural" [audPoint 750 40]) "Binaural" (by decide)
      [audPoint 750 40] (fun _ => .num 750) (fun _ => .num 40)
      rfl rfl rfl rfl
      (by intro p hp; rw [List.mem_singleton] at hp; subst hp; exact ⟨rfl, rfl⟩)
      [] [] []
    simpa using h

theorem except_map_eq_ok {ε α β : Type} {x : Except ε α} {f : α → β} {r : β} :
    f <$> x = .ok r ↔ ∃ b, x = .ok b ∧ f b = r := by
  cases x with
  | error e => simp [Functor.map, Except.map]
  | ok a => simp [Functor.map, Except.map]

theorem hitPointStep_lengths {a b : List JValue × List JValue × List JValue} {p : JValue}
    (h : hitPointStep a p = .ok b) :
    b.1.length = a.1.length + 1 ∧ b.2.1.length = a.2.1.length + 1
      ∧ b.2.2.length = a.2.2.length + 1 := by
  unfold hitPointStep at h
  rcases except_bind_eq_ok.mp h with ⟨f, hf, h⟩
  rcases except_bind_eq_ok.mp h with ⟨iv, hi, h⟩
  rcases except_map_eq_ok.mp h with ⟨ov, ho, h⟩
  subst h
  simp

theorem hitPoints_fold_lengths {pts : List JValue} :
    ∀ {a b : List JValue × List JValue × List JValue},
    pts.foldlM hitPointStep a = .ok b →
    a.1.length = a.2.1.length → a.2.1.length = a.2.2.length →
    b.1.length = b.2.1.length ∧ b.2.1.length = b.2.2.length := by
  induction pts with
  | nil =>
    intro a b h h1 h2
    have hab : a = b := by simpa [List.foldlM, pure, Except.pure] using h
    subst hab
    exact ⟨h1, h2⟩
  | cons p ps ih =>
    intro a b h h1 h2
    rw [foldlM_cons_eq] at h
    rcases except_bind_eq_ok.mp h with ⟨c, hc, h⟩
    obtain ⟨l1, l2, l3⟩ := hitPointStep_lengths hc
    exact ih h (by omega) (by omega)

theorem hitItemStep_shape {acc out : List (List JValue) × List (List JValue) × List (List JValue)}
    {item : JValue} (h : hitItemStep acc item = .ok out) :
    ∃ t : List JValue × List JValue × List JValue,
      out = (acc.1 ++ [t.1], acc.2.1 ++ [t.2.1], acc.2.2 ++ [t.2.2])
      ∧ t.1.length = t.2.1.length ∧ t.2.1.length = t.2.2.length := by
  unfold hitItemStep at h
  rcases except_bind_eq_ok.mp h with ⟨points, _, h⟩
  rcases except_bind_eq_ok.mp h with ⟨pl, _, h⟩
  rcases except_map_eq_ok.mp h with ⟨t, hfold, hout⟩
  obtain ⟨e1, e2⟩ := hitPoints_fold_lengths hfold rfl rfl
  exact ⟨t, hout.symm, e1, e2⟩

theorem hitFold_aligned {items : List JValue} :
    ∀ {acc out : List (List JValue) × List (List JValue) × List (List JValue)},
    items.foldlM hitItemStep acc = .ok out →
    List.Forall₂ sameLength acc.1 acc.2.1 →
    List.Forall₂ sameLength acc.2.1 acc.2.2 →
    List.Forall₂ sameLength out.1 out.2.1 ∧ List.Forall₂ sameLength out.2.1 out.2.2 := by
  induction items with
  | nil =>
    intro acc out h h1 h2
    have hab : acc = out := by simpa [List.foldlM, pure, Except.pure] using h
    subst hab
    exact ⟨h1, h2⟩
  | cons it its ih =>
    intro acc out h h1 h2
    rw [foldlM_cons_eq] at h
    rcases except_bind_eq_ok.mp h with ⟨c, hc, h⟩
    obtain ⟨t, hcEq, t1, t2⟩ := hitItemStep_shape hc
    subst hcEq
    exact ih h (List.rel_append h1 (List.Forall₂.cons t1 List.Forall₂.nil))
      (List.rel_append h2 (List.Forall₂.cons t2 List.Forall₂.nil))

/-- C3 (amended): the source has no dimension-consistency check and no
DimensionMismatchWarning.  For the HIT side, no mismatch can even be
produced on success: the per-point loop of lines 117 to 120 appends to the
three lists together, so whenever hitLists succeeds, the frequency, input
and output lists of every probe item have pairwise equal lengths.  A point
that lacks one of the three keys instead raises KeyError, aborting the
whole extraction rather than excluding that series (see the
counterexample). -/
theorem hit_component_lists_equal_length (h : JValue)
    (fss iss oss : List (List JValue))
    (hok : hitLists h = .ok (fss, iss, oss)) :
    List.Forall₂ sameLength fss iss ∧ List.Forall₂ sameLength iss oss := by
  unfold hitLists at hok
  rcases except_bind_eq_ok.mp hok with ⟨items, _, hfold⟩
  exact hitFold_aligned hfold List.Forall₂.nil List.Forall₂.nil

/-- C3 witness: the scenario HIT collection extracts successfully and its
component lists are aligned. -/
theorem hit_component_lists_equal_length_witness :
    hitLists (.arr scenarioHitItems)
      = .ok ([[JValue.num 1000]], [[JValue.num 50]], [[JValue.num 62]]) ∧
    (List.Forall₂ sameLength [[JValue.num 1000]] [[JValue.num 50]] ∧
     List.Forall₂ sameLength [[JValue.num 50]] [[JValue.num 62]]) :=
  ⟨rfl, hit_component_lists_equal_length (.arr scenarioHitItems) _ _ _ rfl⟩

/-- C3 counterexample: a HIT collection with one valid probe item and one
item whose second point lacks the Input key (a 2-frequency, 1-input
series): the loop does not flag the malformed series and return the valid
one, it raises KeyError and returns nothing, while the valid item alone
would extract fine. -/
theorem hit_missing_input_key_counterexample :
    hitLists (.arr [.obj [("Points", .arr [hitPoint 1000 50 62])],
                    .obj [("Points", .arr [hitPoint 2000 50 64,
                      .obj [("Frequency", .num 4000), ("Output", .num 70)]])]])
      = .error .keyError
  ∧ hitLists (.arr [.obj [("Points", .arr [hitPoint 1000 50 62])]])
      = .ok ([[.num 1000]], [[.num 50]], [[.num 62]]) := ⟨rfl, rfl⟩

theorem parse_json_eval_sessions {fs : List (String × JValue)} {v : JValue}
    (log : List String) (h : dictGet fs "Sessions" = some v) :
    parse_json log (.obj fs)
      = if pyTruthy v then (log, parseSessions v)
        else (log ++ [missingSessionsMessage], .ok (none, none)) := by
  by_cases ht : pyTruthy v <;> simp [parse_json, parse_json_core_of_sessions h, ht]

theorem parseSessions_head_congr {s s2 : JValue}
    (hS : extractFromSession s = extractFromSession s2) (rest : List JValue) :
    parseSessions (.arr (s :: rest)) = parseSessions (.arr (s2 :: rest)) := by
  simp only [parseSessions, pyLen, ok_bind, List.length_cons, pySubscriptNat,
             List.get?_cons_zero, List.get?_cons_succ]
  rw [hS]

theorem parseSessions_second_congr {s2 s2b : JValue}
    (hS : extractFromSession s2 = extractFromSession s2b)
    (first : JValue) (rest : List JValue) :
    parseSessions (.arr (first :: s2 :: rest))
      = parseSessions (.arr (first :: s2b :: rest)) := by
  simp only [parseSessions, pyLen, ok_bind, List.length_cons, pySubscriptNat,
             List.get?_cons_zero, List.get?_cons_succ]
  rw [hS]

theorem extract_norm {f1 f2 : List (String × JValue)} {x : JValue}
    (hx : isList x = false)
    (h1 : dictGet f1 "DataSets" = some (.arr [x]))
    (h2 : dictGet f2 "DataSets" = some x) :
    extractFromSession (.obj f1) = extractFromSession (.obj f2) := by
  simp only [extractFromSession, contains_of_dictGet_some h1, contains_of_dictGet_some h2,
             subscript_of_dictGet_some h1, subscript_of_dictGet_some h2, ok_bind]
  have hL : normalizeDataSets (.arr [x]) = .ok x := rfl
  have hR : normalizeDataSets x = .ok x := by
    unfold normalizeDataSets
    rw [hx]
    rfl
  rw [hL, hR]

/-- C6: two documents identical except that one stores the dataset node of
session 0 as a one-element list and the other as the bare element (an
object, hence not a list), parse the same; and the same normalization
applies to the dataset node of session 1. -/
theorem dataset_list_or_object_normalization
    (f1 f2 : List (String × JValue)) (x : JValue) (hx : isList x = false)
    (h1 : dictGet f1 "DataSets" = some (.arr [x]))
    (h2 : dictGet f2 "DataSets" = some x)
    (docA docB docC docD : List (String × JValue))
    (rest : List JValue) (other : JValue) (log : List String)
    (hA : dictGet docA "Sessions" = some (.arr (.obj f1 :: rest)))
    (hB : dictGet docB "Sessions" = some (.arr (.obj f2 :: rest)))
    (hC : dictGet docC "Sessions" = some (.arr (other :: .obj f1 :: rest)))
    (hD : dictGet docD "Sessions" = some (.arr (other :: .obj f2 :: rest))) :
    parse_json log (.obj docA) = parse_json log (.obj docB) ∧
    parse_json log (.obj docC) = parse_json log (.obj docD) := by
  have hext := extract_norm hx h1 h2
  constructor
  · rw [parse_json_eval_sessions log hA, parse_json_eval_sessions log hB]
    simp [pyTruthy, parseSessions_head_congr hext rest]
  · rw [parse_json_eval_sessions log hC, parse_json_eval_sessions log hD]
    simp [pyTruthy, parseSessions_second_congr hext other rest]

/-- C6 witness: the list-wrapped and the bare dataset object parse the
same, both at session 0 and at session 1. -/
theorem dataset_list_or_object_normalization_witness :
    isList (JValue.obj [("Data", .obj [("Collection", .arr [])])]) = false ∧
    parse_json [] (.obj [("Sessions", .arr [.obj [("DataSets",
        .arr [.obj [("Data", .obj [("Collection", .arr [])])]])]])])
      = parse_json [] (.obj [("Sessions", .arr [.obj [("DataSets",
          .obj [("Data", .obj [("Collection", .arr [])])])]])]) ∧
    parse_json [] (.obj [("Sessions", .arr [.num 0, .obj [("DataSets",
        .arr [.obj [("Data", .obj [("Collection", .arr [])])]])]])])
      = parse_json [] (.obj [("Sessions", .arr [.num 0, .obj [("DataSets",
          .obj [("Data", .obj [("Collection", .arr [])])])]])]) := by
  have h := dataset_list_or_object_normalization
    [("DataSets", .arr [.obj [("Data", .obj [("Collection", .arr [])])]])]
    [("DataSets", .obj [("Data", .obj [("Collection", .arr [])])])]
    (.obj [("Data", .obj [("Collection", .arr [])])]) rfl rfl rfl
    [("Sessions", .arr [.obj [("DataSets",
        .arr [.obj [("Data", .obj [("Collection", .arr [])])]])]])]
    [("Sessions", .arr [.obj [("DataSets",
        .obj [("Data", .obj [("Collection", .arr [])])])]])]
    [("Sessions", .arr [.num 0, .obj [("DataSets",
        .arr [.obj [("Data", .obj [("Collection", .arr [])])]])]])]
    [("Sessions", .arr [.num 0, .obj [("DataSets",
        .obj [("Data", .obj [("Collection", .arr [])])])]])]
    [] (.num 0) [] rfl rfl rfl rfl
  exact ⟨rfl, h.1, h.2⟩

theorem parseSessions_firstTwo (a a2 : JValue) (as bs : List JValue) :
    parseSessions (.arr (a :: a2 :: as)) = parseSessions (.arr (a :: a2 :: bs)) := by
  simp only [parseSessions, pyLen, ok_bind, List.length_cons, pySubscriptNat,
             List.get?_cons_zero, List.get?_cons_succ]
  have h1 : as.length + 1 + 1 ≥ 1 := by omega
  have h2 : bs.length + 1 + 1 ≥ 1 := by omega
  have h3 : as.length + 1 + 1 ≥ 2 := by omega
  have h4 : bs.length + 1 + 1 ≥ 2 := by omega
  simp [h1, h2, h3, h4]

/-- C10: the extraction result depends only on the sessions at indices 0
and 1: two documents whose Sessions lists agree on their first two
entries (and on their presence or absence) parse identically, whatever
sessions follow at index 2 and beyond and whatever other top-level keys
the documents carry. -/
theorem extraction_depends_only_on_first_two_sessions
    (fsA fsB : List (String × JValue)) (sA sB : List JValue) (log : List String)
    (hA : dictGet fsA "Sessions" = some (.arr sA))
    (hB : dictGet fsB "Sessions" = some (.arr sB))
    (h2 : sA.take 2 = sB.take 2) :
    parse_json log (.obj fsA) = parse_json log (.obj fsB) := by
  rw [parse_json_eval_sessions log hA, parse_json_eval_sessions log hB]
  rcases sA with _ | ⟨a, _ | ⟨a2, as⟩⟩ <;> rcases sB with _ | ⟨b, _ | ⟨b2, bs⟩⟩ <;>
    simp only [List.take, List.cons.injEq] at h2
  · rfl
  · exact absurd h2 (by simp)
  · exact absurd h2 (by simp)
  · exact absurd h2 (by simp)
  · obtain ⟨hab, _⟩ := h2
    subst hab
    rfl
  · exact absurd h2 (by simp)
  · exact absurd h2 (by simp)
  · exact absurd h2 (by simp)
  · obtain ⟨hab, hab2, _⟩ := h2
    subst hab
    subst hab2
    simp [pyTruthy, parseSessions_firstTwo a a2 as bs]

/-- C10 witness: appending a third session does not change the result. -/
theorem extraction_depends_only_on_first_two_sessions_witness :
    ([JValue.obj [], JValue.obj []] : List JValue).take 2
      = ([JValue.obj [], JValue.obj [], JValue.num 7] : List JValue).take 2 ∧
    parse_json [] (.obj [("Sessions", .arr [JValue.obj [], JValue.obj []])])
      = parse_json [] (.obj [("Sessions",
          .arr [JValue.obj [], JValue.obj [], JValue.num 7])]) :=
  ⟨rfl, extraction_depends_only_on_first_two_sessions
    [("Sessions", .arr [JValue.obj [], JValue.obj []])]
    [("Sessions", .arr [JValue.obj [], JValue.obj [], JValue.num 7])]
    [JValue.obj [], JValue.obj []] [JValue.obj [], JValue.obj [], JValue.num 7]
    [] rfl rfl rfl⟩

end HitBoxDiscovery
